import Mathlib

/-
Verification development for the Political-Party-Elites crawling and
parsing pipeline.  The Python sources are shallowly embedded as executable
Lean definitions: BeautifulSoup queries are modelled by passing the queried
view of the markup (the texts and attributes the code actually reads) as
structured input, Python strings are modelled as Lean `String` with
character-list based operations mirroring `str` methods, and exception
control flow is modelled with `Except`/`Option`.
-/

set_option maxHeartbeats 1000000
set_option maxRecDepth 16384

namespace PartyElites

/-! ## String operations modelling Python `str` methods -/

/-- Helper for `containsSub`: scan of `hay` for `needle` as a prefix of some
suffix. -/
def containsSubAux (needle : List Char) : List Char → Bool
  | [] => needle.isEmpty
  | c :: rest => needle.isPrefixOf (c :: rest) || containsSubAux needle rest

/-- `containsSub hay needle` models the Python membership test
`needle in hay` on strings. -/
def containsSub (hay needle : String) : Bool :=
  containsSubAux needle.data hay.data

/-- Python `s.startswith(p)`. -/
def pyStartsWith (s p : String) : Bool :=
  p.data.isPrefixOf s.data

/-- Python `str.removeprefix`: drop `p` from the front of `s` when `s`
starts with `p`, once, only at the very start; otherwise return `s`
unchanged. -/
def pyRemovePre (s p : String) : String :=
  if p.data.isPrefixOf s.data then String.mk (s.data.drop p.data.length) else s

/-- Whitespace predicate used by the embedding of `str.strip` and of the
regex class `\s` (modelled by the ASCII whitespace characters that occur in
the scraped markup). -/
def pyIsWs (c : Char) : Bool := c.isWhitespace

/-- Python `str.strip()` (no arguments): remove leading and trailing
whitespace. -/
def pyStrip (s : String) : String :=
  String.mk (((s.data.dropWhile pyIsWs).reverse.dropWhile pyIsWs).reverse)

/-- Helper for `clean_text`: collapse every run of whitespace characters to
a single space.  The boolean records whether the previous character was
whitespace. -/
def collapseWsAux : Bool → List Char → List Char
  | _, [] => []
  | prevWs, c :: rest =>
    if pyIsWs c then
      if prevWs then collapseWsAux true rest
      else ' ' :: collapseWsAux true rest
    else c :: collapseWsAux false rest

/-- `ForumXMLParser.clean_text` (parsing_pirate_posts.py lines 21-27):
`re.sub(r"\s+", " ", text.strip())`, with the empty-input guard. -/
def clean_text (s : String) : String :=
  if s = "" then ""
  else String.mk (collapseWsAux false (pyStrip s).data)

/-- Helper for `pySplit`: fuel-driven scan emitting the segments of the
input separated by the (non-empty) separator. -/
def pySplitGo (sep : List Char) : Nat → List Char → List Char → List (List Char)
  | 0, acc, rest => [acc.reverse ++ rest]
  | _ + 1, acc, [] => [acc.reverse]
  | fuel + 1, acc, c :: rest =>
    if sep.isPrefixOf (c :: rest) then
      acc.reverse :: pySplitGo sep fuel [] ((c :: rest).drop sep.length)
    else pySplitGo sep fuel (c :: acc) rest

/-- Python `s.split(sep)` for a non-empty separator: split at every
non-overlapping occurrence, left to right; `"".split(sep) = [""]`. -/
def pySplit (s sep : String) : List String :=
  if sep = "" then [s]
  else (pySplitGo sep.data (s.data.length + 1) [] s.data).map String.mk

/-- Python `s.replace(pat, rep)` for a non-empty pattern: replace every
non-overlapping occurrence (equals joining the split segments with the
replacement). -/
def pyReplace (s pat rep : String) : String :=
  if pat = "" then s else String.intercalate rep (pySplit s pat)

/-- Digits of a decimal numeral to a natural number (models Python `int`
applied to a string of digits captured by `\d+`). -/
def natOfDigits (run : List Char) : Nat :=
  run.foldl (fun a c => a * 10 + (c.toNat - 48)) 0

/-- First maximal run of decimal digits in a character list, modelling
`re.search(r"(\d+)", text)`. -/
def firstDigitRun : List Char → Option (List Char)
  | [] => none
  | c :: rest =>
    if c.isDigit then some (c :: rest.takeWhile Char.isDigit)
    else firstDigitRun rest

/-! ## Vote-table extraction (parsing_pirate_votes.py, parsing section) -/

/-- One emitted voter row: ballot title, voter name, vote in {0,1}. -/
structure VoteRecord where
  title : String
  name : String
  vote : Nat
deriving DecidableEq, Repr

/-- The queried view of one saved election page: the stripped text of the
`h3.title` heading when present, and the voter table (`table.pretty`) as
the stripped cell texts of its rows, `none` when `soup.find` finds no such
table. -/
structure VotePage where
  title_tag : Option String
  table : Option (List (List String))

/-- Vote normalization (parsing_pirate_votes.py line 52):
`vote = 0 if vote_raw in ["—", "&mdash;", ""] else 1`. -/
def vote_of_cell (vote_raw : String) : Nat :=
  if vote_raw = "—" ∨ vote_raw = "&mdash;" ∨ vote_raw = "" then 0 else 1

/-- Title extraction (parsing_pirate_votes.py lines 29-34): first segment
of the heading text before an em-dash, stripped; `"Unknown"` when the
heading is absent. -/
def vote_title (page : VotePage) : String :=
  match page.title_tag with
  | some raw => pyStrip ((pySplit raw "—").headD raw)
  | none => "Unknown"

/-- The per-row loop (parsing_pirate_votes.py lines 43-58): rows with fewer
than two cells are skipped (`continue`); otherwise emit title, first-cell
name and the normalized second-cell vote. -/
def extract_vote_rows (title : String) (rows : List (List String)) : List VoteRecord :=
  rows.filterMap fun cols =>
    match cols with
    | name :: vote_raw :: _ => some ⟨title, name, vote_of_cell vote_raw⟩
    | _ => none

/-- Error message produced when the vote parser dereferences the absent
voter table (`table.find_all` with `table = None`). -/
def attrErrorMsg : String :=
  "AttributeError: NoneType object has no attribute find_all"

/-- Whole-page vote parsing (parsing_pirate_votes.py lines 29-58): extract
the title, then `table.find_all("tr")[1:]` — when `soup.find` returned no
table this raises an uncaught `AttributeError`, modelled as
`Except.error`; otherwise the header row is skipped and the remaining rows
converted. -/
def parse_vote_page (page : VotePage) : Except String (List VoteRecord) :=
  let title := vote_title page
  match page.table with
  | none => Except.error attrErrorMsg
  | some tbl => Except.ok (extract_vote_rows title (tbl.drop 1))

/-! ## Helios enumerated pagination (parsing_pirate_votes.py, scraper section) -/

/-- Content-length threshold of the pagination-end heuristic
(`data["content_length"] < 500`). -/
def paginationThreshold : Nat := 500

/-- A page is usable for the pagination loop when the fetch succeeded and
its content length reaches the threshold. -/
def pageUsable (fetch : Nat → Option Nat) (p : Nat) : Bool :=
  match fetch p with
  | none => false
  | some len => decide (paginationThreshold ≤ len)

/-- The inner loop of `HeliosScraper.run` (parsing_pirate_votes.py lines
233-254): fetch pages at ascending page numbers, stop at the first page
whose fetch failed or whose content length is below the threshold.  The
fetch oracle abstracts `scrape_url` composed with the page-URL synthesis;
it returns the content length of the fetched page, `none` on failure.
Returns the list of saved page numbers and the number of fetches issued. -/
def helios_inner (fetch : Nat → Option Nat) : Nat → Nat → List Nat × Nat
  | _, 0 => ([], 0)
  | p, fuel + 1 =>
    match fetch p with
    | none => ([], 1)
    | some len =>
      if len < paginationThreshold then ([], 1)
      else
        let r := helios_inner fetch (p + 1) fuel
        (p :: r.1, r.2 + 1)

/-- `HeliosScraper.run` inner loop for one base URL: pages
`range(1, 26)`, i.e. page numbers 1..25. -/
def heliosRun (fetch : Nat → Option Nat) : List Nat × Nat :=
  helios_inner fetch 1 25

/-- Page-URL synthesis (parsing_pirate_votes.py lines 235-239): rewrite an
existing `page=` query parameter via `re.sub(r"page=\d+", ...)`, or append
one with `&`/`?` depending on whether the base URL already has a query. -/
def helios_page_url (base : String) (page_num : Nat) : String :=
  if containsSub base "page=" then
    match pySplit base "page=" with
    | [] => base
    | first :: rest =>
      first ++ String.join (rest.map fun seg =>
        let ds := seg.data.takeWhile Char.isDigit
        if ds.isEmpty then "page=" ++ seg
        else "page=" ++ toString page_num ++ String.mk (seg.data.drop ds.length))
  else
    let joinChar := if containsSub base "?" then "&" else "?"
    base ++ joinChar ++ "page=" ++ toString page_num

/-- The synthetic fetch oracle of the pagination scenario: page content
lengths 2000, 1800, 1900, 50 for pages 1-4, nothing beyond. -/
def exampleFetch : Nat → Option Nat := fun p =>
  if p = 1 then some 2000
  else if p = 2 then some 1800
  else if p = 3 then some 1900
  else if p = 4 then some 50
  else none

/-! ## URL parsing (urllib.parse as used by main_scraping.py) -/

/-- The query component of a URL as `urlparse` extracts it: everything
after the first `?`, with a fragment (everything after the first `#`)
split off beforehand. -/
def urlQuery (url : String) : String :=
  let noFrag := (pySplit url "#").headD url
  match pySplit noFrag "?" with
  | [] => ""
  | [_] => ""
  | _ :: rest => String.intercalate "?" rest

/-- Plus-to-space decoding of `parse_qs`.  Percent-escapes are modelled as
literal text: no percent-encoded byte occurs in the URL handling of this
repository. -/
def pyUnquotePlus (s : String) : String :=
  pyReplace s "+" " "

/-- `urllib.parse.parse_qs` with its default options (separator `&`, blank
values dropped, fields without `=` dropped), returned as the ordered list
of name/value pairs; the dict view `parse_qs(q)[k][0]` is the first pair
with key `k`. -/
def parse_qs_pairs (qs : String) : List (String × String) :=
  (pySplit qs "&").filterMap fun field =>
    if field = "" then none
    else
      match pySplit field "=" with
      | [_] => none
      | name :: rest =>
        let value := String.intercalate "=" rest
        if value = "" then none
        else some (pyUnquotePlus name, pyUnquotePlus value)
      | [] => none

/-- First value of a query parameter (`parse_qs(q)[key][0]`), `none` when
the key is absent. -/
def qsLookup (pairs : List (String × String)) (key : String) : Option String :=
  List.lookup key pairs

/-! ## PirateForumScraper (main_scraping.py) -/

/-- `PirateForumScraper.extract_topic_info_from_url` (main_scraping.py
lines 162-191): topic id from the `t` query parameter (`None` when
absent), start offset from the `start` parameter defaulting to `"0"`.
`urlparse`/`parse_qs` never raise on string input, so the surrounding
`try` is dead and the function is total. -/
def extract_topic_info_from_url (url : String) : Option String × String :=
  let query_params := parse_qs_pairs (urlQuery url)
  let topic_id : Option String :=
    match qsLookup query_params "t" with
    | some v => some v
    | none => none
  let start_value : String :=
    match qsLookup query_params "start" with
    | some v => v
    | none => "0"
  (topic_id, start_value)

/-- English "authentication required" marker (main_scraping.py line 114). -/
def auth_required_marker_en : String := "requires you to be registered and logged in"

/-- Czech "authentication required" marker (main_scraping.py line 114). -/
def auth_required_marker_cs : String := "požaduje, abyste byli registrováni a přihlášeni"

/-- English logout-control marker (main_scraping.py line 117). -/
def logout_marker_en : String := "Logout"

/-- Czech logout-control marker (main_scraping.py line 117). -/
def logout_marker_cs : String := "Odhlásit se"

/-- Body contains an authentication-required marker in either locale. -/
def has_auth_required (body : String) : Bool :=
  containsSub body auth_required_marker_en || containsSub body auth_required_marker_cs

/-- Body contains a logout-control marker in either locale. -/
def has_logout (body : String) : Bool :=
  containsSub body logout_marker_en || containsSub body logout_marker_cs

/-- The verification phase of `PirateForumScraper.login` (main_scraping.py
lines 108-128): inspect the protected-topic response body; the
registration-required markers force failure, the logout markers force
success, and when neither is present the main-page body is inspected for
the logout markers before declaring failure. -/
def login_verification (test_body main_body : String) : Bool :=
  if has_auth_required test_body then false
  else if has_logout test_body then true
  else if has_logout main_body then true
  else false

/-- Line validation of `read_links_from_file` (main_scraping.py line 150):
the line must contain both the forum host and the `viewtopic.php` path
substrings. -/
def is_valid_forum_line (line : String) : Bool :=
  containsSub line "forum.pirati.cz" && containsSub line "viewtopic.php"

/-- `PirateForumScraper.read_links_from_file` over the lines of the input
file (main_scraping.py lines 144-156): strip each line, skip blanks and
`#`-comments, keep only lines passing the host/path validation (invalid
lines are warned about and skipped). -/
def read_links_from_lines (lines : List String) : List String :=
  lines.filterMap fun raw =>
    let line := pyStrip raw
    if line = "" then none
    else if pyStartsWith line "#" then none
    else if is_valid_forum_line line then some line
    else none

/-- The page record built by `scrape_url` (main_scraping.py lines
232-240).  `scraped_at` is wall-clock output and is not modelled. -/
structure PageData where
  id : Option String
  start : String
  url : String
  raw_html : String
  status_code : Nat
  content_length : Nat
deriving DecidableEq, Repr

/-- The six error-page marker phrases of `scrape_url` (main_scraping.py
lines 214-221). -/
def error_indicators : List String :=
  ["this topic does not exist",
   "toto téma neexistuje",
   "topic not found",
   "téma nenalezeno",
   "page not found",
   "stránka nenalezena"]

/-- Python `str.lower` on the characters occurring in the scraped markup:
ASCII letters plus the Czech diacritic letters used by the marker
phrases. -/
def pyLowerChar (c : Char) : Char :=
  if 'A' ≤ c ∧ c ≤ 'Z' then Char.ofNat (c.toNat + 32)
  else if c = 'Á' then 'á' else if c = 'Č' then 'č' else if c = 'Ď' then 'ď'
  else if c = 'É' then 'é' else if c = 'Ě' then 'ě' else if c = 'Í' then 'í'
  else if c = 'Ň' then 'ň' else if c = 'Ó' then 'ó' else if c = 'Ř' then 'ř'
  else if c = 'Š' then 'š' else if c = 'Ť' then 'ť' else if c = 'Ú' then 'ú'
  else if c = 'Ů' then 'ů' else if c = 'Ý' then 'ý' else if c = 'Ž' then 'ž'
  else c

/-- Python `str.lower`. -/
def pyLower (s : String) : String :=
  String.mk (s.data.map pyLowerChar)

/-- `PirateForumScraper.scrape_url` (main_scraping.py lines 193-246).  The
fetch oracle abstracts `self.session.get`, returning status code and body,
`none` on a transport exception.  A non-200 status, a body whose stripped
length is under 100, or a lowercased body containing one of the six error
indicators yields `none` (page skipped); otherwise the page record is
built with the topic id and start offset from the URL. -/
def scrape_url (fetch : String → Option (Nat × String)) (url : String) : Option PageData :=
  match fetch url with
  | none => none
  | some (status, body) =>
    if status ≠ 200 then none
    else if (pyStrip body).length < 100 then none
    else if error_indicators.any (fun ind => containsSub (pyLower body) ind) then none
    else
      let ti := extract_topic_info_from_url url
      some { id := ti.1, start := ti.2, url := url, raw_html := body,
             status_code := status, content_length := body.length }

/-- Python `str(x)` on the optional topic id: `str(None) = "None"`. -/
def pyStrOfOpt : Option String → String
  | some s => s
  | none => "None"

/-- Filename construction of `save_page_as_html` (main_scraping.py line
264): the f-string `topic_{id}-{start}.xml`. -/
def save_filename (pd : PageData) : String :=
  "topic_" ++ pyStrOfOpt pd.id ++ "-" ++ pd.start ++ ".xml"

/-- The scraping phase of `PirateForumScraper.run` (main_scraping.py lines
334-378): a failed login only prints a warning (the run proceeds
anonymously, which is why the login result is unused below); every
validated URL is fetched once with `scrape_url`, successful pages are
saved under their constructed filename, failed ones skipped. -/
def scraper_run (loginOk : Bool) (lines : List String)
    (fetch : String → Option (Nat × String)) : List (String × PageData) :=
  let _ := loginOk
  let urls := read_links_from_lines lines
  urls.filterMap fun url =>
    (scrape_url fetch url).map fun pd => (save_filename pd, pd)

/-! ## Forum post extraction (parsing_pirate_posts.py)

The BeautifulSoup queries of `extract_user_info` and
`extract_post_content` are modelled by presenting each post container as
the structured view of exactly the texts and attributes those queries
read; a `none` field means the corresponding element (or element chain)
was not found. -/

/-- The username link of the post profile: its text and `href` attribute
(`profile_div.find("a", class_="username-coloured")` falling back to class
`username`; the first style class found wins). -/
structure UsernameLink where
  text : String
  href : String

/-- Queried view of the `dl.postprofile` block (parsing_pirate_posts.py
lines 59-113).  Each field is the text the code reads from the named
element, `none` when the element (or, for `posts_link` and the two thanks
fields, the nested link) is missing. -/
structure ProfileDiv where
  username_link : Option UsernameLink
  rank_dd : Option String
  posts_link : Option String
  joined_text : Option String
  profession_text : Option String
  location_text : Option String
  thanks_given_link : Option String
  thanks_received_link : Option String

/-- The partial user-info dict built by `extract_user_info`: a key is
present in the dict iff the field is `some`. -/
structure UserInfo where
  username : Option String := none
  user_id : Option String := none
  rank : Option String := none
  post_count : Option String := none
  registration_date : Option String := none
  profession : Option String := none
  location : Option String := none
  thanks_given : Option String := none
  thanks_received : Option String := none

/-- `href.split("u=")[-1] if "u=" in href else ""` (parsing_pirate_posts.py
line 65). -/
def user_id_of_href (href : String) : String :=
  if containsSub href "u=" then (pySplit href "u=").getLastD ""
  else ""

/-- `ForumXMLParser.extract_user_info` (parsing_pirate_posts.py lines
54-118) over the queried view of the profile block; `none` input models a
post with no `dl.postprofile`.  Every branch mirrors one `if` of the
source; label-prefixed fields are set only when their label text occurs. -/
def extract_user_info : Option ProfileDiv → UserInfo
  | none => {}
  | some p =>
    { username := p.username_link.map fun l => clean_text l.text
      user_id := p.username_link.map fun l => user_id_of_href l.href
      rank := p.rank_dd.map clean_text
      post_count := p.posts_link.map clean_text
      registration_date := p.joined_text.bind fun t =>
        if containsSub t "Registrován:" then
          some (clean_text (pyStrip (pyReplace t "Registrován:" "")))
        else none
      profession := p.profession_text.bind fun t =>
        if containsSub t "Profese:" then
          some (clean_text (pyStrip (pyReplace t "Profese:" "")))
        else none
      location := p.location_text.bind fun t =>
        if containsSub t "Bydliště:" then
          some (clean_text (pyStrip (pyReplace t "Bydliště:" "")))
        else none
      thanks_given := p.thanks_given_link.map fun t =>
        (firstDigitRun t.data).elim "" String.mk
      thanks_received := p.thanks_received_link.map fun t =>
        (firstDigitRun t.data).elim "" String.mk }

/-- Queried view of the thanks `dl` inside the post body: the text of its
first `dt` (if any) and, when a `dd` is present, the texts of the username
links listed in it. -/
structure ThanksDl where
  dt_text : Option String
  dd_links : Option (List String)

/-- Queried view of the `div.postbody` block: raw text of the first
`h3 > a` title link, `str(time_elem)` of the `p.author time` element, text
of `div.content`, and the first `dl` found inside the body. -/
structure PostBody where
  title_link : Option String
  author_time : Option String
  content_text : Option String
  thanks_dl : Option ThanksDl

/-- Queried view of one `div.post` container: its `id` attribute, the
profile block and the post body. -/
structure PostDiv where
  profile : Option ProfileDiv
  id : Option String
  postbody : Option PostBody

/-- Leftmost value captured by `re.search(r"datetime=\x22([^\x22]+)\x22", s)`:
the non-empty text between `datetime="` and the next `"`. -/
def dtAttrAux : List Char → Option (List Char)
  | [] => none
  | c :: rest =>
    if ("datetime=\"".data).isPrefixOf (c :: rest) then
      let after := (c :: rest).drop 10
      let captured := after.takeWhile fun ch => ch ≠ '"'
      if captured.isEmpty then dtAttrAux rest
      else if (after.drop captured.length).head? = some '"' then some captured
      else dtAttrAux rest
    else dtAttrAux rest

/-- Simplified model of `datetime.fromisoformat` composed with
`strftime("%Y-%m-%d %H:%M:%S")`: accepts the
`YYYY-MM-DD[T ]HH:MM[:SS...]` shapes emitted by the forum markup
(after the `Z` → `+00:00` rewrite), ignoring any fraction or offset
suffix; seconds default to `00`.  Range validation is abstracted;
unrecognized shapes are `none` (the source's parse exception). -/
def isoToStd (s0 : String) : Option String :=
  let s := pyReplace s0 "Z" "+00:00"
  match s.data with
  | y1 :: y2 :: y3 :: y4 :: '-' :: mo1 :: mo2 :: '-' :: d1 :: d2 :: _sep ::
      h1 :: h2 :: ':' :: mi1 :: mi2 :: rest =>
    if ([y1, y2, y3, y4, mo1, mo2, d1, d2, h1, h2, mi1, mi2].all Char.isDigit) then
      let sec : List Char :=
        match rest with
        | ':' :: s1 :: s2 :: _ =>
          if s1.isDigit && s2.isDigit then [s1, s2] else ['0', '0']
        | _ => ['0', '0']
      some (String.mk ([y1, y2, y3, y4, '-', mo1, mo2, '-', d1, d2, ' ',
        h1, h2, ':', mi1, mi2, ':'] ++ sec))
    else none
  | _ => none

/-- Word-character predicate modelling the regex class `\w` over the
scraped text: ASCII alphanumerics, underscore, and any non-ASCII letter
(Czech month names). -/
def pyIsWordChar (c : Char) : Bool :=
  c.isAlphanum || c = '_' || decide (127 < c.toNat)

/-- Simplified model of the fallback search
`re.search(r"(\d{1,2}\s+\w+\s+\d{4}),?\s+(\d{1,2}:\d{2})", s)` used by
`parse_datetime`: at each position, match a 1-2 digit day, whitespace, a
word, whitespace, a 4-digit year, an optional comma, whitespace, and a
1-2 digit hour with 2-digit minutes, without the regex engine's full
backtracking.  Returns the two captured groups. -/
def fallbackDateAux : List Char → Option (List Char × List Char)
  | [] => none
  | c :: rest =>
    (if c.isDigit then
      let day := (c :: rest).takeWhile Char.isDigit
      if day.length ≤ 2 then
        let r1 := (c :: rest).drop day.length
        let ws1 := r1.takeWhile pyIsWs
        if ws1.isEmpty then none
        else
          let r2 := r1.drop ws1.length
          let word := r2.takeWhile fun ch => pyIsWordChar ch && !ch.isDigit
          if word.isEmpty then none
          else
            let r3 := r2.drop word.length
            let ws2 := r3.takeWhile pyIsWs
            if ws2.isEmpty then none
            else
              let r4 := r3.drop ws2.length
              let year := r4.takeWhile Char.isDigit
              if year.length = 4 then
                let r5 := r4.drop 4
                let r6 := if r5.head? = some ',' then r5.drop 1 else r5
                let ws3 := r6.takeWhile pyIsWs
                if ws3.isEmpty then none
                else
                  let r7 := r6.drop ws3.length
                  let hh := r7.takeWhile Char.isDigit
                  if 1 ≤ hh.length ∧ hh.length ≤ 2 then
                    let r8 := r7.drop hh.length
                    match r8 with
                    | ':' :: m1 :: m2 :: _ =>
                      if m1.isDigit && m2.isDigit then
                        some (day ++ ws1 ++ word ++ ws2 ++ year, hh ++ [':', m1, m2])
                      else none
                    | _ => none
                  else none
              else none
      else none
    else none).orElse fun _ => fallbackDateAux rest

/-- `ForumXMLParser.parse_datetime` (parsing_pirate_posts.py lines 29-52):
prefer the machine-readable `datetime="..."` attribute reformatted from
ISO-8601 (a parse failure is caught and the original string returned);
otherwise fall back to the visible date/time regex pair; otherwise return
the input unchanged. -/
def parse_datetime (s : String) : String :=
  if s = "" then ""
  else if containsSub s "datetime=" then
    match dtAttrAux s.data with
    | some dtStr =>
      match isoToStd (String.mk dtStr) with
      | some out => out
      | none => s
    | none =>
      match fallbackDateAux s.data with
      | some (g1, g2) => String.mk g1 ++ " " ++ String.mk g2
      | none => s
  else
    match fallbackDateAux s.data with
    | some (g1, g2) => String.mk g1 ++ " " ++ String.mk g2
    | none => s

/-- Leftmost match of `re.search(r"celkem (\d+)", s)` as a number: the
first occurrence of `celkem ` followed by at least one digit, capturing
the maximal digit run. -/
def searchCelkem : List Char → Option Nat
  | [] => none
  | c :: rest =>
    if ("celkem ".data).isPrefixOf (c :: rest) then
      let after := (c :: rest).drop 7
      let run := after.takeWhile Char.isDigit
      if run.isEmpty then searchCelkem rest else some (natOfDigits run)
    else searchCelkem rest

/-- The partial post dict built by `extract_post_content`: `post_id` is
always set; the other keys are present iff `some`. -/
structure PostData where
  post_id : String
  title : Option String
  datetime : Option String
  content : Option String
  thanks_users : Option String
  thanks_count : Option Nat

/-- `ForumXMLParser.extract_post_content` (parsing_pirate_posts.py lines
120-180).  `post_id` strips every `p` from the container's id attribute
(`.replace("p", "")`), the title strips a leading `"Re: "` once, and the
thanks block follows the source's nesting: the `celkem N` count is
authoritative when present, otherwise the number of listed names; the
trailing defaults for `thanks_users`/`thanks_count` sit inside the
`if postbody_div:` branch of the source, so a post with no body container
leaves both keys absent. -/
def extract_post_content (d : PostDiv) : PostData :=
  let post_id : String :=
    match d.id with
    | some i => pyReplace i "p" ""
    | none => ""
  match d.postbody with
  | none =>
    { post_id := post_id, title := none, datetime := none, content := none,
      thanks_users := none, thanks_count := none }
  | some pb =>
    let title := pb.title_link.map fun t => pyRemovePre (clean_text t) "Re: "
    let datetime := pb.author_time.map parse_datetime
    let content := pb.content_text.map clean_text
    let thanksPair : Option String × Option Nat :=
      match pb.thanks_dl with
      | none => (none, none)
      | some dl =>
        match dl.dt_text with
        | none => (none, none)
        | some dt =>
          if containsSub dt "poděkovali autorovi" then
            let count0 : Option Nat := searchCelkem dt.data
            match dl.dd_links with
            | none => (none, count0)
            | some links =>
              let users := links.map clean_text
              let tc : Option Nat :=
                match count0 with
                | some n => some n
                | none => some users.length
              (some (String.intercalate ", " users), tc)
          else (none, none)
    { post_id := post_id, title := title, datetime := datetime, content := content,
      thanks_users := some (thanksPair.1.getD ""),
      thanks_count := some (thanksPair.2.getD 0) }

/-! ## Record assembly and spreadsheet output (parsing_pirate_posts.py) -/

/-- A spreadsheet cell value: the dicts hold strings except
`thanks_count`, which is an `int`; `nan` is the value pandas places in an
existing column for a row that lacks the key. -/
inductive Cell
  | str (s : String)
  | intVal (n : Nat)
  | nan
deriving DecidableEq, Repr

/-- One post dict as the ordered key/value list pandas receives. -/
abbrev PostRow := List (String × Cell)

/-- Key/value entry for an optional string field: present iff the dict key
was set. -/
def optEntry (k : String) (v : Option String) : PostRow :=
  match v with
  | some s => [(k, Cell.str s)]
  | none => []

/-- The entries `extract_user_info` contributes, in insertion order. -/
def userPairs (u : UserInfo) : PostRow :=
  optEntry "username" u.username ++ optEntry "user_id" u.user_id ++
  optEntry "rank" u.rank ++ optEntry "post_count" u.post_count ++
  optEntry "registration_date" u.registration_date ++
  optEntry "profession" u.profession ++ optEntry "location" u.location ++
  optEntry "thanks_given" u.thanks_given ++ optEntry "thanks_received" u.thanks_received

/-- The entries `extract_post_content` contributes (`post_id` always;
`thanks_count` as an `int` cell). -/
def postPairs (p : PostData) : PostRow :=
  [("post_id", Cell.str p.post_id)] ++ optEntry "title" p.title ++
  optEntry "datetime" p.datetime ++ optEntry "content" p.content ++
  optEntry "thanks_users" p.thanks_users ++
  (match p.thanks_count with
   | some n => [("thanks_count", Cell.intVal n)]
   | none => [])

/-- The merged dict of `parse_forum_xml` (parsing_pirate_posts.py line
213): `{"forum_id": forum_id, **user_info, **post_content}` — the key sets
of the two parts are disjoint, so the merge is concatenation. -/
def buildRow (forum_id : String) (d : PostDiv) : PostRow :=
  ("forum_id", Cell.str forum_id) ::
    (userPairs (extract_user_info d.profile) ++ postPairs (extract_post_content d))

/-- The body of the per-post `try` of `parse_forum_xml`
(parsing_pirate_posts.py lines 205-214); the extraction helpers catch
their own exceptions internally, so the step always succeeds. -/
def postStep (forum_id : String) (d : PostDiv) : Except String PostRow :=
  Except.ok (buildRow forum_id d)

/-- The `for ... try ... except: continue` loop skeleton of
`parse_forum_xml`: a step that raises is skipped, the remaining items are
still processed. -/
def skipErrors (step : PostDiv → Except String PostRow) (xs : List PostDiv) : List PostRow :=
  xs.filterMap fun a => (step a).toOption

/-- `ForumXMLParser.parse_forum_xml` (parsing_pirate_posts.py lines
193-220) over the post containers found in the markup: zero containers
yield the empty list, and a failing per-post step is skipped. -/
def parse_forum_xml (forum_id : String) (divs : List PostDiv) : List PostRow :=
  skipErrors (postStep forum_id) divs

/-- The fixed 16-column output order of `create_xlsx_from_posts`
(parsing_pirate_posts.py lines 232-237). -/
def fixedColumns : List String :=
  ["forum_id", "post_id", "title", "username", "user_id", "rank", "post_count",
   "registration_date", "profession", "location", "thanks_given",
   "thanks_received", "datetime", "content", "thanks_users", "thanks_count"]

/-- Whether the DataFrame built from the dicts has a column: some row
carries the key. -/
def colPresent (rows : List PostRow) (c : String) : Bool :=
  rows.any fun r => r.any fun kv => kv.1 == c

/-- `ForumXMLParser.create_xlsx_from_posts` (parsing_pirate_posts.py lines
222-250): empty input writes nothing (`none`); otherwise every column
absent from all rows is filled with the empty string, a row missing a key
of an existing column gets pandas' NaN, and the columns are reordered to
the fixed 16-column order.  Result: header and cell matrix. -/
def create_xlsx_from_posts (rows : List PostRow) : Option (List String × List (List Cell)) :=
  if rows.isEmpty then none
  else
    some (fixedColumns, rows.map fun r => fixedColumns.map fun c =>
      if colPresent rows c then
        match List.lookup c r with
        | some v => v
        | none => Cell.nan
      else Cell.str "")

/-! ## Helper lemmas -/

/-- A list is a Boolean prefix of itself followed by anything. -/
theorem isPrefixOf_self_append (l m : List Char) : l.isPrefixOf (l ++ m) = true := by
  induction l with
  | nil => simp [List.isPrefixOf]
  | cons a t ih => simp [List.isPrefixOf, ih]

/-! ## Claim C1 — vote normalization -/

/-- C1 counterexample: the code also maps the literal seven-character
HTML-entity text to vote 0, although it is neither the em-dash character
nor the empty string, so "vote is 0 iff the cell text is an em-dash or
empty" fails at this input. -/
theorem c1_counterexample :
    vote_of_cell "&mdash;" = 0 ∧ ¬("&mdash;" = "—" ∨ "&mdash;" = "") := by
  decide

/-- C1 (amended): for every vote-table row with at least two cells, the
emitted record's vote is `vote_of_cell` of the second cell; the vote is
always 0 or 1, and it is 0 exactly when the stripped cell text is the
em-dash character, the literal entity text `&mdash;`, or empty. -/
theorem c1_vote_normalization :
    (∀ c : String, vote_of_cell c = 0 ∨ vote_of_cell c = 1) ∧
    (∀ c : String, vote_of_cell c = 0 ↔ (c = "—" ∨ c = "&mdash;" ∨ c = "")) ∧
    (∀ (title name voteRaw : String) (rest : List String) (rows : List (List String)),
      extract_vote_rows title ((name :: voteRaw :: rest) :: rows) =
        ⟨title, name, vote_of_cell voteRaw⟩ :: extract_vote_rows title rows) := by
  refine ⟨fun c => ?_, fun c => ?_, fun t n v rest rows => ?_⟩
  · unfold vote_of_cell
    split <;> simp
  · unfold vote_of_cell
    split <;> rename_i h <;> simp [h]
  · simp [extract_vote_rows, List.filterMap_cons]

/-! ## Claim C5 — extraction failure policy -/

/-- C5 counterexample: vote markup with no voter table does not yield an
empty record sequence — the parser dereferences the absent table and
raises, modelled as an `Except.error` carrying no record list. -/
theorem c5_counterexample :
    parse_vote_page ⟨none, none⟩ = Except.error attrErrorMsg ∧
    (parse_vote_page ⟨none, none⟩).toOption = none := by
  exact ⟨rfl, rfl⟩

/-- C5 (amended): a single malformed record does not abort the page — a
forum post whose extraction step raises is skipped while the rest are
emitted, and a vote row with fewer than two cells is skipped; forum markup
with zero post containers yields the empty sequence, and a voter table
with no data rows yields the empty sequence; but vote markup with no voter
table raises an uncaught error instead of yielding an empty sequence. -/
theorem c5_failure_policy :
    (∀ (step : PostDiv → Except String PostRow) (xs ys : List PostDiv) (bad : PostDiv)
       (e : String), step bad = Except.error e →
       skipErrors step (xs ++ bad :: ys) = skipErrors step (xs ++ ys)) ∧
    (∀ forum_id : String, parse_forum_xml forum_id [] = []) ∧
    (∀ (title : String) (cols : List String) (rows : List (List String)),
       cols.length < 2 →
       extract_vote_rows title (cols :: rows) = extract_vote_rows title rows) ∧
    (∀ (t : Option String) (tbl : List (List String)), tbl.length ≤ 1 →
       parse_vote_page ⟨t, some tbl⟩ = Except.ok []) ∧
    (∀ t : Option String, parse_vote_page ⟨t, none⟩ = Except.error attrErrorMsg) := by
  refine ⟨?_, fun _ => rfl, ?_, ?_, fun _ => rfl⟩
  · intro step xs ys bad e h
    simp [skipErrors, List.filterMap_append, List.filterMap_cons, h, Except.toOption]
  · intro title cols rows h
    match cols with
    | [] => simp [extract_vote_rows, List.filterMap_cons]
    | [x] => simp [extract_vote_rows, List.filterMap_cons]
    | x :: y :: t => exact absurd h (by simp)
  · intro t tbl h
    have hd : tbl.drop 1 = [] := List.drop_eq_nil_of_le h
    simp [parse_vote_page, hd, extract_vote_rows]

/-- C5 witness: the amended failure policy at concrete inputs — an
always-raising step makes the loop skip the bad container, a one-cell row
is skipped, and a header-only table parses to the empty sequence. -/
theorem c5_witness :
    skipErrors (fun _ => Except.error "boom") ([] ++ ⟨none, none, none⟩ :: []) =
      skipErrors (fun _ => Except.error "boom") ([] ++ []) ∧
    extract_vote_rows "T" (["only"] :: [["Alice", "Ano"]]) =
      extract_vote_rows "T" [["Alice", "Ano"]] ∧
    parse_vote_page ⟨some "X", some [["Jméno", "Hlas"]]⟩ = Except.ok [] := by
  refine ⟨?_, ?_, ?_⟩
  · exact c5_failure_policy.1 (fun _ => Except.error "boom") [] [] ⟨none, none, none⟩ "boom" rfl
  · exact c5_failure_policy.2.2.1 "T" ["only"] [["Alice", "Ano"]] (by decide)
  · exact c5_failure_policy.2.2.2.1 (some "X") [["Jméno", "Hlas"]] (by decide)

/-! ## Claim C6 — title-prefix stripping -/

/-- C6: the emitted title applies `removeprefix "Re: "` to the cleaned
heading text; the prefix is removed only when it occurs at the very start
and only its first occurrence is removed: a string starting with the
prefix loses exactly that one copy, a string not starting with it is
unchanged, and the two specification examples hold. -/
theorem c6_title_strip :
    (∀ (pr : Option ProfileDiv) (idv : Option String) (raw : String)
       (atv ct : Option String) (dl : Option ThanksDl),
       (extract_post_content ⟨pr, idv, some ⟨some raw, atv, ct, dl⟩⟩).title =
         some (pyRemovePre (clean_text raw) "Re: ")) ∧
    (∀ t : String, pyRemovePre ("Re: " ++ t) "Re: " = t) ∧
    (∀ s : String, ("Re: ".data.isPrefixOf s.data) = false → pyRemovePre s "Re: " = s) ∧
    pyRemovePre (clean_text "Re: Hello") "Re: " = "Hello" ∧
    pyRemovePre (clean_text "Re: Re: X") "Re: " = "Re: X" := by
  refine ⟨?_, ?_, ?_, by decide, by decide⟩
  · intro pr idv raw atv ct dl
    rfl
  · intro t
    have hd : ("Re: " ++ t).data = "Re: ".data ++ t.data := rfl
    simp only [pyRemovePre, hd, isPrefixOf_self_append, if_true]
    rw [List.drop_left]
  · intro s h
    simp [pyRemovePre, h]

/-- C6 witness: a title with the prefix in the middle only is unchanged. -/
theorem c6_witness : pyRemovePre "Hello Re: X" "Re: " = "Hello Re: X" :=
  c6_title_strip.2.2.1 "Hello Re: X" (by decide)

/-! ## Claim C3 — enumerated-pagination termination -/

/-- Full characterization of the Helios inner pagination loop, by
induction on the remaining page budget: the saved pages are the
consecutive page numbers from the start, their count is bounded by the
budget, the fetch count is one past the saved count (capped at the
budget), every saved page was usable, and when the loop stopped early the
first unsaved page was not usable. -/
theorem helios_inner_spec (fetch : Nat → Option Nat) :
    ∀ (fuel p : Nat),
      (helios_inner fetch p fuel).1 =
        List.range' p (helios_inner fetch p fuel).1.length ∧
      (helios_inner fetch p fuel).1.length ≤ fuel ∧
      (helios_inner fetch p fuel).2 =
        min ((helios_inner fetch p fuel).1.length + 1) fuel ∧
      (∀ i, i < (helios_inner fetch p fuel).1.length → pageUsable fetch (p + i) = true) ∧
      ((helios_inner fetch p fuel).1.length < fuel →
        pageUsable fetch (p + (helios_inner fetch p fuel).1.length) = false) := by
  intro fuel
  induction fuel with
  | zero =>
    intro p
    simp [helios_inner]
  | succ n ih =>
    intro p
    obtain ⟨ih1, ih2, ih3, ih4, ih5⟩ := ih (p + 1)
    unfold helios_inner
    cases hf : fetch p with
    | none =>
      refine ⟨by simp, by simp, by simp, by simp, ?_⟩
      intro _
      simp [pageUsable, hf]
    | some len =>
      by_cases hl : len < paginationThreshold
      · simp only [hl, if_true]
        refine ⟨by simp, by simp, by simp, by simp, ?_⟩
        intro _
        simp [pageUsable, hf]
        omega
      · simp only [hl, if_false]
        have husable : pageUsable fetch p = true := by
          simp [pageUsable, hf]
          omega
        refine ⟨?_, ?_, ?_, ?_, ?_⟩
        · simp only [List.length_cons, List.range'_succ]
          exact congrArg (p :: ·) ih1
        · simpa using ih2
        · simp only [List.length_cons, ih3]
          omega
        · intro i hi
          cases i with
          | zero => simpa using husable
          | succ j =>
            have : p + (j + 1) = (p + 1) + j := by omega
            rw [this]
            exact ih4 j (by simpa using hi)
        · intro hlt
          have : p + ((helios_inner fetch (p + 1) n).1.length + 1) =
              (p + 1) + (helios_inner fetch (p + 1) n).1.length := by omega
          simp only [List.length_cons, this]
          exact ih5 (by simpa using hlt)

/-- C3: for each base URL the controller fetches ascending page numbers
starting at 1, saves the consecutive usable pages, never issues more than
25 fetches, stops at the first page that is not usable or below the
length threshold, and on the synthetic length sequence
`[2000, 1800, 1900, 50]` with threshold 500 it performs exactly 4 fetches
and saves exactly 3 pages. -/
theorem c3_enumerated_pagination :
    (∀ fetch, (heliosRun fetch).1 = List.range' 1 (heliosRun fetch).1.length) ∧
    (∀ fetch, (heliosRun fetch).1.length ≤ 25) ∧
    (∀ fetch, (heliosRun fetch).2 = min ((heliosRun fetch).1.length + 1) 25) ∧
    (∀ fetch, (heliosRun fetch).2 ≤ 25) ∧
    (∀ fetch i, i < (heliosRun fetch).1.length → pageUsable fetch (1 + i) = true) ∧
    (∀ fetch, (heliosRun fetch).1.length < 25 →
      pageUsable fetch (1 + (heliosRun fetch).1.length) = false) ∧
    heliosRun exampleFetch = ([1, 2, 3], 4) := by
  refine ⟨fun f => (helios_inner_spec f 25 1).1,
          fun f => (helios_inner_spec f 25 1).2.1,
          fun f => (helios_inner_spec f 25 1).2.2.1,
          fun f => ?_,
          fun f => (helios_inner_spec f 25 1).2.2.2.1,
          fun f => (helios_inner_spec f 25 1).2.2.2.2,
          by decide⟩
  show (helios_inner f 1 25).2 ≤ 25
  rw [(helios_inner_spec f 25 1).2.2.1]
  exact Nat.min_le_right _ _

/-- C3 witness: the general loop characterization applied to the
synthetic sequence — its first page is usable and its fourth page (the
first unsaved one) is not. -/
theorem c3_witness :
    pageUsable exampleFetch (1 + 0) = true ∧
    pageUsable exampleFetch (1 + (heliosRun exampleFetch).1.length) = false := by
  exact ⟨c3_enumerated_pagination.2.2.2.2.1 exampleFetch 0 (by decide),
         c3_enumerated_pagination.2.2.2.2.2.1 exampleFetch (by decide)⟩

/-! ## Claim C2 — error-page classification -/

/-- A body carrying the site's registration-required message, long enough
to pass the viability threshold and containing none of the six error
indicators. -/
def regMarkerBody : String :=
  "This board requires you to be registered and logged in in order to view this content. Please log in with your forum account to continue reading the discussion."

/-- C2 counterexample: a 200-response whose body contains the
registration-required marker is NOT classified as an error page — the
fetch returns a usable page record, because the fixed marker set of
`scrape_url` contains no registration-required phrase in either locale. -/
theorem c2_counterexample :
    containsSub (pyLower regMarkerBody) "requires you to be registered and logged in" = true ∧
    (scrape_url (fun _ => some (200, regMarkerBody))
      "https://forum.pirati.cz/viewtopic.php?t=1").isSome = true := by
  constructor
  · decide
  · decide

/-- C2 (amended): for every fetched 200-response of viable length, the
fetch classifies the page as an error page (returns no usable result)
exactly when the lowercased body contains one of the six fixed marker
phrases — topic-not-found (two phrasings) and page-not-found, each in
both of the site's locales; the set contains no registration-required
phrase, and the check is a case-insensitive substring scan (the body is
lowercased against lowercase markers), not a structural parse. -/
theorem c2_error_classification :
    ∀ (fetch : String → Option (Nat × String)) (url body : String),
      fetch url = some (200, body) →
      100 ≤ (pyStrip body).length →
      ((scrape_url fetch url = none) ↔
        (error_indicators.any fun ind => containsSub (pyLower body) ind) = true) := by
  intro fetch url body hf hlen
  have hnl : ¬ (pyStrip body).length < 100 := by omega
  by_cases hind : (error_indicators.any fun ind => containsSub (pyLower body) ind) = true
  · simp [scrape_url, hf, hnl, hind]
  · simp [scrape_url, hf, hnl, hind]

/-- A body carrying the English topic-not-found phrase, long enough to
pass the viability threshold. -/
def topicNotFoundBody : String :=
  "We are sorry but the requested topic not found message applies: the discussion you were looking for has been removed from this board or never existed at all."

/-- C2 witness: the amended classification at a concrete marker body —
the page is classified as an error page exactly because a marker phrase
occurs. -/
theorem c2_witness :
    (scrape_url (fun _ => some (200, topicNotFoundBody))
        "https://forum.pirati.cz/viewtopic.php?t=2" = none) ↔
      (error_indicators.any fun ind => containsSub (pyLower topicNotFoundBody) ind) = true := by
  exact c2_error_classification (fun _ => some (200, topicNotFoundBody))
    "https://forum.pirati.cz/viewtopic.php?t=2" topicNotFoundBody rfl (by decide)

/-! ## Claim C4 — topic-info extraction -/

/-- C4: for every valid forum URL the extraction returns exactly the
URL's `t` query parameter as identifier and its `start` query parameter
as offset, the offset defaulting to `"0"` when `start` is absent. -/
theorem c4_topic_info :
    ∀ url : String, is_valid_forum_line url = true →
      extract_topic_info_from_url url =
        (qsLookup (parse_qs_pairs (urlQuery url)) "t",
         (qsLookup (parse_qs_pairs (urlQuery url)) "start").getD "0") := by
  intro url _
  cases h1 : qsLookup (parse_qs_pairs (urlQuery url)) "t" <;>
    cases h2 : qsLookup (parse_qs_pairs (urlQuery url)) "start" <;>
      simp [extract_topic_info_from_url, h1, h2]

/-- C4 witness: the extraction at a concrete valid forum URL recovers the
`t` and `start` parameters. -/
theorem c4_witness :
    extract_topic_info_from_url "https://forum.pirati.cz/viewtopic.php?t=47593&start=20" =
      (some "47593", "20") := by
  rw [c4_topic_info "https://forum.pirati.cz/viewtopic.php?t=47593&start=20" (by decide)]
  decide

/-! ## Claim C9 — login verification protocol -/

/-- C9: the verification GET's body is classified in order — an
authentication-required marker in either locale forces Failed; otherwise
a logout-control marker in either locale forces Verified; when neither
marker is found the site root's body decides, Verified exactly when its
logout marker is present.  A failed login never aborts the run: the
controller's scraping output is the same whether the login succeeded or
not (it proceeds anonymously). -/
theorem c9_login_verification :
    (∀ tb mb : String, has_auth_required tb = true →
       login_verification tb mb = false) ∧
    (∀ tb mb : String, has_auth_required tb = false → has_logout tb = true →
       login_verification tb mb = true) ∧
    (∀ tb mb : String, has_auth_required tb = false → has_logout tb = false →
       login_verification tb mb = has_logout mb) ∧
    (∀ (lines : List String) (fetch : String → Option (Nat × String)),
       scraper_run false lines fetch = scraper_run true lines fetch) := by
  refine ⟨?_, ?_, ?_, fun lines fetch => rfl⟩
  · intro tb mb h
    simp [login_verification, h]
  · intro tb mb h1 h2
    simp [login_verification, h1, h2]
  · intro tb mb h1 h2
    cases h3 : has_logout mb <;> simp [login_verification, h1, h2, h3]

/-- C9 witness: a protected-topic body showing a logout control verifies
the login. -/
theorem c9_witness : login_verification "click Logout to leave" "" = true :=
  c9_login_verification.2.1 "click Logout to leave" "" (by decide) (by decide)

/-! ## Claim C10 — behaviour on URLs without a `t` parameter -/

/-- A syntactically valid forum line whose query string has a `start`
parameter but no `t` parameter. -/
def noTUrl : String := "https://forum.pirati.cz/viewtopic.php?start=50"

/-- C10 counterexample: for a URL whose query lacks `t` but carries
`start=50`, the extraction returns offset `"50"`, not the claimed offset
`"0"`. -/
theorem c10_counterexample :
    qsLookup (parse_qs_pairs (urlQuery noTUrl)) "t" = none ∧
    extract_topic_info_from_url noTUrl = (none, "50") ∧ ("50" : String) ≠ "0" := by
  refine ⟨by decide, by decide, by decide⟩

/-- A 200-response body long enough to pass every `scrape_url` check and
containing no error marker. -/
def cleanLongBody : String :=
  "The forum page loaded correctly and lists several replies from party members about the agenda of the next assembly, including quorum rules and minutes."

/-- C10 (amended): `extract_topic_info_from_url` is total and always
returns the `t` lookup paired with the `start` lookup defaulted to
`"0"`; when the query lacks `t` the identifier is `None` while the offset
is whatever `start` yields (only defaulting to `"0"` when `start` is also
absent); `scrape_url` still emits a page record whose id is the
extraction's identifier, and a validated input line without `t` is
fetched and saved under a filename containing `"None"`. -/
theorem c10_no_topic_id :
    (∀ url : String, extract_topic_info_from_url url =
        (qsLookup (parse_qs_pairs (urlQuery url)) "t",
         (qsLookup (parse_qs_pairs (urlQuery url)) "start").getD "0")) ∧
    (∀ url : String, qsLookup (parse_qs_pairs (urlQuery url)) "t" = none →
       (extract_topic_info_from_url url).1 = none) ∧
    (∀ (fetch : String → Option (Nat × String)) (url : String) (pd : PageData),
       scrape_url fetch url = some pd →
       pd.id = (extract_topic_info_from_url url).1 ∧
       save_filename pd =
         "topic_" ++ pyStrOfOpt (extract_topic_info_from_url url).1 ++ "-" ++
           (extract_topic_info_from_url url).2 ++ ".xml") ∧
    (is_valid_forum_line noTUrl = true ∧
     (scraper_run false [noTUrl] (fun _ => some (200, cleanLongBody))).map Prod.fst =
       ["topic_None-50.xml"] ∧
     containsSub "topic_None-50.xml" "None" = true) := by
  have hshape : ∀ url : String, extract_topic_info_from_url url =
      (qsLookup (parse_qs_pairs (urlQuery url)) "t",
       (qsLookup (parse_qs_pairs (urlQuery url)) "start").getD "0") := by
    intro url
    cases h1 : qsLookup (parse_qs_pairs (urlQuery url)) "t" <;>
      cases h2 : qsLookup (parse_qs_pairs (urlQuery url)) "start" <;>
        simp [extract_topic_info_from_url, h1, h2]
  refine ⟨hshape, ?_, ?_, by decide, by decide, by decide⟩
  · intro url h
    rw [hshape url, h]
  · intro fetch url pd h
    unfold scrape_url at h
    cases hf : fetch url with
    | none =>
      rw [hf] at h
      exact absurd h (by simp)
    | some sb =>
      obtain ⟨status, body⟩ := sb
      rw [hf] at h
      by_cases h200 : status ≠ 200
      · simp [h200] at h
      · simp only [h200, if_false] at h
        by_cases hlen : (pyStrip body).length < 100
        · simp [hlen] at h
        · simp only [hlen, if_false] at h
          by_cases hind : (error_indicators.any fun ind => containsSub (pyLower body) ind) = true
          · simp [hind] at h
          · simp only [hind, Bool.false_eq_true, if_false, Option.some.injEq] at h
            subst h
            exact ⟨rfl, rfl⟩

/-- C10 witness: the amended statement instantiated at the concrete
`start`-only URL — the identifier is `None`. -/
theorem c10_witness : (extract_topic_info_from_url noTUrl).1 = none :=
  c10_no_topic_id.2.1 noTUrl (by decide)

/-! ## Claim C7 — output schema completeness and order -/

/-- C7 counterexample: markup whose only post container has no body
container yields a row whose `thanks_count` cell is the empty string, not
the integer 0 — the thanks defaults sit inside the body-container branch,
so no record carries the key and the column is filled like any other
missing column. -/
theorem c7_counterexample :
    create_xlsx_from_posts [buildRow "38314" ⟨none, none, none⟩] =
      some (fixedColumns,
        [[Cell.str "38314", Cell.str "", Cell.str "", Cell.str "", Cell.str "",
          Cell.str "", Cell.str "", Cell.str "", Cell.str "", Cell.str "",
          Cell.str "", Cell.str "", Cell.str "", Cell.str "", Cell.str "",
          Cell.str ""]]) ∧
    Cell.str "" ≠ Cell.intVal 0 := by
  exact ⟨by decide, by decide⟩

/-- A post body container in which every optional element is missing. -/
def emptyPostBody : PostBody := ⟨none, none, none, none⟩

/-- C7 (amended): every emitted output table has exactly the 16 fixed
columns in the contract order and every row has 16 cells; a post whose
optional author fields are all missing but whose body container is
present yields a row defaulting every missing field to the empty string
with `thanks_count = 0`; however a post with no body container omits the
thanks keys, so when no record in the file carries them `thanks_count` is
filled with the empty string rather than 0. -/
theorem c7_schema :
    (∀ rows : List PostRow, rows ≠ [] →
       ∃ body, create_xlsx_from_posts rows = some (fixedColumns, body) ∧
         body.length = rows.length ∧ ∀ r ∈ body, r.length = 16) ∧
    (∀ fid : String,
       create_xlsx_from_posts [buildRow fid ⟨none, some "p123", some emptyPostBody⟩] =
         some (fixedColumns,
           [[Cell.str fid, Cell.str "123", Cell.str "", Cell.str "", Cell.str "",
             Cell.str "", Cell.str "", Cell.str "", Cell.str "", Cell.str "",
             Cell.str "", Cell.str "", Cell.str "", Cell.str "",
             Cell.str "", Cell.intVal 0]])) := by
  constructor
  · intro rows h
    have he : rows.isEmpty = false := by
      cases rows with
      | nil => exact absurd rfl h
      | cons a t => rfl
    unfold create_xlsx_from_posts
    rw [he]
    simp only [Bool.false_eq_true, if_false]
    refine ⟨_, rfl, by simp, ?_⟩
    intro r hr
    simp only [List.mem_map] at hr
    obtain ⟨a, -, rfl⟩ := hr
    simp [fixedColumns]
  · intro fid
    rfl

/-- C7 witness: the schema shape applied at a concrete one-row input —
the output exists (16 fixed columns). -/
theorem c7_witness :
    (create_xlsx_from_posts [buildRow "1" ⟨none, none, some emptyPostBody⟩]).isSome = true := by
  obtain ⟨body, hb, -, -⟩ :=
    c7_schema.1 [buildRow "1" ⟨none, none, some emptyPostBody⟩] (by simp)
  rw [hb]
  rfl

/-! ## Claim C8 — thanks-line extraction -/

/-- C8 counterexample: a post container with no body container has no
thanked-by line, yet its record carries neither `thanks_users = ""` nor
`thanks_count = 0` — both keys are absent, because the defaults sit
inside the body-container branch. -/
theorem c8_counterexample :
    (extract_post_content ⟨none, none, none⟩).thanks_users = none ∧
    (extract_post_content ⟨none, none, none⟩).thanks_count = none ∧
    (none : Option String) ≠ some "" ∧ (none : Option Nat) ≠ some 0 := by
  exact ⟨rfl, rfl, by decide, by decide⟩

/-- C8 (amended): for every post container whose body container is
present — if a thanked-by line is present (a thanks `dl` whose `dt` text
contains the marker phrase) then `thanks_count` equals the explicit
`celkem N` count when that phrase exists and otherwise the number of user
names listed in the line (zero when no name list is present), with
`thanks_users` the comma-joined cleaned names; if no such line exists,
`thanks_users = ""` and `thanks_count = 0`.  A post with no body
container instead omits both keys. -/
theorem c8_thanks :
    (∀ (pr : Option ProfileDiv) (idv tl atv ct : Option String) (dt : String)
       (links : List String) (n : Nat),
       containsSub dt "poděkovali autorovi" = true →
       searchCelkem dt.data = some n →
       (extract_post_content
          ⟨pr, idv, some ⟨tl, atv, ct, some ⟨some dt, some links⟩⟩⟩).thanks_count = some n ∧
       (extract_post_content
          ⟨pr, idv, some ⟨tl, atv, ct, some ⟨some dt, some links⟩⟩⟩).thanks_users =
         some (String.intercalate ", " (links.map clean_text))) ∧
    (∀ (pr : Option ProfileDiv) (idv tl atv ct : Option String) (dt : String)
       (links : List String),
       containsSub dt "poděkovali autorovi" = true →
       searchCelkem dt.data = none →
       (extract_post_content
          ⟨pr, idv, some ⟨tl, atv, ct, some ⟨some dt, some links⟩⟩⟩).thanks_count =
         some links.length) ∧
    (∀ (pr : Option ProfileDiv) (idv tl atv ct : Option String) (dt : String),
       containsSub dt "poděkovali autorovi" = true →
       searchCelkem dt.data = none →
       (extract_post_content
          ⟨pr, idv, some ⟨tl, atv, ct, some ⟨some dt, none⟩⟩⟩).thanks_count = some 0 ∧
       (extract_post_content
          ⟨pr, idv, some ⟨tl, atv, ct, some ⟨some dt, none⟩⟩⟩).thanks_users = some "") ∧
    (∀ (pr : Option ProfileDiv) (idv tl atv ct : Option String) (dt : String)
       (dd : Option (List String)),
       containsSub dt "poděkovali autorovi" = false →
       (extract_post_content
          ⟨pr, idv, some ⟨tl, atv, ct, some ⟨some dt, dd⟩⟩⟩).thanks_users = some "" ∧
       (extract_post_content
          ⟨pr, idv, some ⟨tl, atv, ct, some ⟨some dt, dd⟩⟩⟩).thanks_count = some 0) ∧
    (∀ (pr : Option ProfileDiv) (idv tl atv ct : Option String),
       (extract_post_content ⟨pr, idv, some ⟨tl, atv, ct, none⟩⟩).thanks_users = some "" ∧
       (extract_post_content ⟨pr, idv, some ⟨tl, atv, ct, none⟩⟩).thanks_count = some 0) ∧
    (∀ (pr : Option ProfileDiv) (idv : Option String),
       (extract_post_content ⟨pr, idv, none⟩).thanks_users = none ∧
       (extract_post_content ⟨pr, idv, none⟩).thanks_count = none) := by
  refine ⟨?_, ?_, ?_, ?_, ?_, ?_⟩
  · intro pr idv tl atv ct dt links n hp hc
    constructor <;> simp [extract_post_content, hp, hc]
  · intro pr idv tl atv ct dt links hp hc
    simp [extract_post_content, hp, hc]
  · intro pr idv tl atv ct dt hp hc
    constructor <;> simp [extract_post_content, hp, hc]
  · intro pr idv tl atv ct dt dd hp
    constructor <;> simp [extract_post_content, hp]
  · intro pr idv tl atv ct
    constructor <;> rfl
  · intro pr idv
    constructor <;> rfl

/-- The `dt` text of a concrete thanked-by line carrying an explicit
total. -/
def c8dt : String := "4 uživatelé poděkovali autorovi příspěvku celkem 15 krát"

/-- C8 witness: the amended thanks extraction at a concrete thanked-by
line — the explicit `celkem 15` count overrides the two listed names. -/
theorem c8_witness :
    (extract_post_content
       ⟨none, none, some ⟨none, none, none, some ⟨some c8dt, some ["A", "B"]⟩⟩⟩).thanks_count =
      some 15 :=
  (c8_thanks.1 none none none none none c8dt ["A", "B"] 15 (by decide) (by decide)).1

end PartyElites
